import Mathlib

/-!
Verification of the query-handling core of a DNS-to-DoH forwarding proxy
(`dns_to_doh.py`): bogon source filtering, the static override table,
transaction-ID splicing of forwarded answers, and the listener loop.

IPv4 addresses are modelled as natural numbers below 2^32; raw DNS messages
as lists of byte values (`List Nat`); the upstream DoH exchange as an
explicit (status, content) record; and the per-query handler as a pure
function of the query bytes, the (already numeric) client source address,
the static table and the upstream response.
-/

namespace DnsToDoh

/-- The numeric value of the dotted-quad IPv4 address a.b.c.d. -/
def ipv4 (a b c d : Nat) : Nat :=
  ((a * 256 + b) * 256 + c) * 256 + d

/-- Membership of the address `ip` in the CIDR block `net/maskBits`,
as tested by `ip_obj in ipaddress.ip_network(net)`: the two addresses
agree on the top `maskBits` bits. -/
def inCIDR (net : Nat) (maskBits : Nat) (ip : Nat) : Bool :=
  ip / 2 ^ (32 - maskBits) == net / 2 ^ (32 - maskBits)

/-- The module-level `BOGON_IP_RANGES` list: (network address, mask length)
pairs, one per CIDR string in the source. -/
def BOGON_IP_RANGES : List (Nat × Nat) :=
  [ (ipv4 0 0 0 0, 8),
    (ipv4 127 0 0 0, 8),
    (ipv4 169 254 0 0, 16),
    (ipv4 192 0 2 0, 24),
    (ipv4 198 51 100 0, 24),
    (ipv4 203 0 113 0, 24),
    (ipv4 255 255 255 255, 32) ]

/-- `is_bogon_ip`: true iff the address lies in one of the configured
bogon ranges (first match wins in the source loop; `any` is equivalent). -/
def is_bogon_ip (ip : Nat) : Bool :=
  BOGON_IP_RANGES.any (fun r => inCIDR r.1 r.2 ip)

/-- Membership in one of the three RFC1918 private ranges
(10.0.0.0/8, 172.16.0.0/12, 192.168.0.0/16), named by the claim. -/
def inRFC1918 (ip : Nat) : Bool :=
  inCIDR (ipv4 10 0 0 0) 8 ip ||
  inCIDR (ipv4 172 16 0 0) 12 ip ||
  inCIDR (ipv4 192 168 0 0) 16 ip

/-- IANA special-purpose IPv4 ranges that are not globally routable:
the configured bogon ranges together with RFC1918 private space,
shared address space, IETF protocol assignments, benchmarking,
multicast and reserved space. -/
def SPECIAL_USE_RANGES : List (Nat × Nat) :=
  BOGON_IP_RANGES ++
  [ (ipv4 10 0 0 0, 8),
    (ipv4 100 64 0 0, 10),
    (ipv4 172 16 0 0, 12),
    (ipv4 192 0 0 0, 24),
    (ipv4 192 168 0 0, 16),
    (ipv4 198 18 0 0, 15),
    (ipv4 224 0 0 0, 4),
    (ipv4 240 0 0 0, 4) ]

/-- A globally routable IPv4 address: a valid address in none of the
special-use ranges. -/
def globallyRoutable (ip : Nat) : Bool :=
  decide (ip < 2 ^ 32) && !(SPECIAL_USE_RANGES.any (fun r => inCIDR r.1 r.2 ip))

/-- `extract_transaction_id`: the first two bytes of the query (`query[:2]`). -/
def extract_transaction_id (query : List Nat) : List Nat :=
  query.take 2

/-- `construct_dns_response`: transaction ID of the original query followed
by the response bytes from offset 2 onward (`transaction_id + response_data[2:]`). -/
def construct_dns_response (original_query response_data : List Nat) : List Nat :=
  extract_transaction_id original_query ++ response_data.drop 2

/-- `parse_dns_query_for_hostname`: the placeholder in the source returns
the constant string regardless of the query bytes. -/
def parse_dns_query_for_hostname (query : List Nat) : String :=
  "example.com"

/-- `create_static_ip_dns_response`: the placeholder in the source returns
the empty byte string regardless of the address. -/
def create_static_ip_dns_response (ip : String) : List Nat :=
  []

/-- The `static_ip_mappings` dict, modelled as a lookup function from
hostname to the stored address string. -/
abbrev StaticTable : Type := String → Option String

/-- The empty table (initial `static_ip_mappings = {}`). -/
def emptyTable : StaticTable := fun _ => none

/-- `add_static_ip_mapping`: dict assignment `static_ip_mappings[hostname] = ip`. -/
def add_static_ip_mapping (m : StaticTable) (hostname ip : String) : StaticTable :=
  fun k => if k = hostname then some ip else m k

/-- `remove_static_ip_mapping`: `del` guarded by `if hostname in static_ip_mappings`. -/
def remove_static_ip_mapping (m : StaticTable) (hostname : String) : StaticTable :=
  if (m hostname).isSome then (fun k => if k = hostname then none else m k) else m

/-- The fixed bytes sent to a blocked bogon client
(`local_response = b'\x00\x00\x81\x80\x00\x01\x00\x01\x00\x00\x00\x00'`). -/
def local_response : List Nat :=
  [0x00, 0x00, 0x81, 0x80, 0x00, 0x01, 0x00, 0x01, 0x00, 0x00, 0x00, 0x00]

/-- The ANCOUNT field of a DNS message: big-endian 16-bit value at
byte offsets 6 and 7 of the header (per the wire layout in the data model). -/
def ancount (msg : List Nat) : Nat :=
  msg.getD 6 0 * 256 + msg.getD 7 0

/-- The upstream DoH exchange result visible to the handler:
`response.status_code` and `response.content`. -/
structure UpstreamResponse where
  status_code : Nat
  content : List Nat

/-- One log line emitted by the handler or the listener loop,
abstracted to its event kind. -/
inductive LogEvent where
  | received : LogEvent
  | blockedBogon : LogEvent
  | staticReply : LogEvent
  | forwarded (status : Nat) : LogEvent
  | forwardedResponse : LogEvent
  | errorForwarding (status : Nat) : LogEvent
  | errorCaught (msg : String) : LogEvent
deriving DecidableEq, Repr

/-- What one call of `handle_dns_query` does: the datagram sent back to the
client, if any, and the log lines it emits. -/
structure HandleResult where
  reply : Option (List Nat)
  logs : List LogEvent
deriving DecidableEq, Repr

/-- `handle_dns_query`: bogon check on the source address, then static
override lookup on the extracted hostname, then DoH forwarding; replies are
the exact byte strings the source passes to `sock.sendto`. -/
def handle_dns_query (data : List Nat) (client_ip : Nat) (table : StaticTable)
    (upstream : UpstreamResponse) : HandleResult :=
  if is_bogon_ip client_ip then
    { reply := some local_response
      logs := [LogEvent.received, LogEvent.blockedBogon] }
  else
    match table (parse_dns_query_for_hostname data) with
    | some ip =>
        { reply := some (construct_dns_response data (create_static_ip_dns_response ip))
          logs := [LogEvent.received, LogEvent.staticReply] }
    | none =>
        if upstream.status_code == 200 then
          { reply := some (construct_dns_response data upstream.content)
            logs := [LogEvent.received, LogEvent.forwarded upstream.status_code,
                     LogEvent.forwardedResponse] }
        else
          { reply := none
            logs := [LogEvent.received, LogEvent.forwarded upstream.status_code,
                     LogEvent.errorForwarding upstream.status_code] }

/-- The outcome of one iteration body of the `while True` loop in
`start_dns_server`: either `handle_dns_query` returned normally, or some
exception was raised while receiving or handling the datagram. -/
inductive LoopOutcome where
  | ok (r : HandleResult) : LoopOutcome
  | exn (msg : String) : LoopOutcome

/-- One iteration of the listener loop: the `try`/`except Exception` body.
Returns whether the loop keeps running and the log lines of the iteration. -/
def start_dns_server_step (o : LoopOutcome) : Bool × List LogEvent :=
  match o with
  | LoopOutcome.ok r => (true, r.logs)
  | LoopOutcome.exn m => (true, [LogEvent.errorCaught m])

/-- Running the listener loop over a finite trace of iteration outcomes:
the number of iterations actually performed, stopping early if an
iteration ever fails to keep the loop running. -/
def start_dns_server_run : List LoopOutcome → Nat
  | [] => 0
  | o :: rest =>
      if (start_dns_server_step o).1 then 1 + start_dns_server_run rest else 1

/-! Theorems for the claims. -/

/-- C1: for any query of at least 2 bytes whose source is not bogon and whose
extracted hostname has no override, when the upstream returns HTTP 200 the
reply sent to the client is the first two bytes of the query (the transaction
ID) followed by the upstream response from offset 2 onward, byte-for-byte. -/
theorem C1_forwarded_reply_splices_transaction_id
    (data : List Nat) (client_ip : Nat) (table : StaticTable)
    (upstream : UpstreamResponse)
    (hlen : 2 <= data.length)
    (hb : is_bogon_ip client_ip = false)
    (hs : table (parse_dns_query_for_hostname data) = none)
    (h200 : upstream.status_code = 200) :
    (handle_dns_query data client_ip table upstream).reply =
      some (data.take 2 ++ upstream.content.drop 2) := by
  simp [handle_dns_query, hb, hs, h200, construct_dns_response,
    extract_transaction_id]

/-- C1 witness: a concrete 6-byte query with transaction ID `0xABCD`,
a non-bogon source, an empty table and a 200 upstream response. -/
theorem C1_forwarded_reply_splices_transaction_id_witness :
    2 <= ([0xAB, 0xCD, 1, 0, 0, 1] : List Nat).length ∧
    is_bogon_ip (ipv4 8 8 8 8) = false ∧
    emptyTable (parse_dns_query_for_hostname [0xAB, 0xCD, 1, 0, 0, 1]) = none ∧
    (handle_dns_query [0xAB, 0xCD, 1, 0, 0, 1] (ipv4 8 8 8 8) emptyTable
        (UpstreamResponse.mk 200 [0x12, 0x34, 0x81, 0x80, 7])).reply =
      some [0xAB, 0xCD, 0x81, 0x80, 7] :=
  ⟨by decide, by decide, rfl,
    C1_forwarded_reply_splices_transaction_id [0xAB, 0xCD, 1, 0, 0, 1]
      (ipv4 8 8 8 8) emptyTable (UpstreamResponse.mk 200 [0x12, 0x34, 0x81, 0x80, 7])
      (by decide) (by decide) rfl rfl⟩

/-- C2 counterexample: a bogon-sourced query with transaction ID `0xABCD`
is answered with the fixed `local_response`, whose first two bytes are
`0x0000` (not the query transaction ID) and whose ANCOUNT is not 0. -/
theorem C2_counterexample_fixed_bogon_reply :
    (handle_dns_query [0xAB, 0xCD, 1, 0, 0, 1, 0, 0, 0, 0, 0, 0]
        (ipv4 127 0 0 1) emptyTable (UpstreamResponse.mk 200 [])).reply =
      some local_response ∧
    ¬(local_response.take 2 =
        ([0xAB, 0xCD, 1, 0, 0, 1, 0, 0, 0, 0, 0, 0] : List Nat).take 2 ∧
      ancount local_response = 0) := by
  constructor
  · decide
  · decide

/-- C2 amended: every bogon-sourced query is answered (never silently
dropped), but with the fixed 12-byte `local_response`, independent of the
query: its first two bytes are `0x0000` and its ANCOUNT field is 1. -/
theorem C2_amended_bogon_reply_is_fixed
    (data : List Nat) (client_ip : Nat) (table : StaticTable)
    (upstream : UpstreamResponse)
    (hb : is_bogon_ip client_ip = true) :
    (handle_dns_query data client_ip table upstream).reply = some local_response ∧
    local_response.take 2 = [0x00, 0x00] ∧
    ancount local_response = 1 := by
  refine ⟨?_, by decide, by decide⟩
  simp [handle_dns_query, hb]

/-- C2 amended witness: source `127.0.0.1` is bogon and the reply is the
fixed `local_response`. -/
theorem C2_amended_bogon_reply_is_fixed_witness :
    is_bogon_ip (ipv4 127 0 0 1) = true ∧
    (handle_dns_query [0xAB, 0xCD] (ipv4 127 0 0 1) emptyTable
        (UpstreamResponse.mk 200 [])).reply = some local_response :=
  ⟨by decide,
    (C2_amended_bogon_reply_is_fixed [0xAB, 0xCD] (ipv4 127 0 0 1) emptyTable
      (UpstreamResponse.mk 200 []) (by decide)).1⟩

/-- C4 code bug: with the override `example.com -> 10.0.0.5` present, a
query with transaction ID `0xABCD` from a routable source is answered with
exactly the two transaction-ID bytes — a 2-byte reply that contains no
answer record and no RDATA, because `create_static_ip_dns_response`
returns empty bytes. -/
theorem C4_code_bug_static_reply_is_bare_transaction_id :
    (handle_dns_query [0xAB, 0xCD, 1, 0, 0, 1, 0, 0, 0, 0, 0, 0]
        (ipv4 8 8 8 8)
        (add_static_ip_mapping emptyTable "example.com" "10.0.0.5")
        (UpstreamResponse.mk 200 [9, 9, 9, 9])).reply = some [0xAB, 0xCD] ∧
    create_static_ip_dns_response "10.0.0.5" = [] := by
  constructor
  · decide
  · rfl

/-- C5 code bug: the empty query (0 bytes, far below the 12-byte header
minimum) is not dropped: hostname extraction returns the constant
placeholder instead of failing, and the query is forwarded upstream and
answered. -/
theorem C5_code_bug_short_query_still_replied :
    parse_dns_query_for_hostname [] = "example.com" ∧
    ([] : List Nat).length < 12 ∧
    (handle_dns_query [] (ipv4 8 8 8 8) emptyTable
        (UpstreamResponse.mk 200 [0x12, 0x34, 0x81, 0x80])).reply =
      some [0x81, 0x80] := by
  refine ⟨rfl, by decide, ?_⟩
  decide

/-- C6: when the upstream returns a status other than 200 for a forwarded
query, no reply is sent to the client, the failure is logged, and the
listener loop keeps running. -/
theorem C6_upstream_error_drops_query
    (data : List Nat) (client_ip : Nat) (table : StaticTable)
    (upstream : UpstreamResponse)
    (hb : is_bogon_ip client_ip = false)
    (hs : table (parse_dns_query_for_hostname data) = none)
    (hstat : upstream.status_code ≠ 200) :
    (handle_dns_query data client_ip table upstream).reply = none ∧
    LogEvent.errorForwarding upstream.status_code ∈
      (handle_dns_query data client_ip table upstream).logs ∧
    (start_dns_server_step
      (LoopOutcome.ok (handle_dns_query data client_ip table upstream))).1 = true := by
  simp [handle_dns_query, hb, hs, hstat, start_dns_server_step]

/-- C6 witness: upstream HTTP 502 on a concrete query, empty table,
routable source. -/
theorem C6_upstream_error_drops_query_witness :
    is_bogon_ip (ipv4 8 8 8 8) = false ∧
    emptyTable (parse_dns_query_for_hostname [0xAB, 0xCD]) = none ∧
    (502 : Nat) ≠ 200 ∧
    (handle_dns_query [0xAB, 0xCD] (ipv4 8 8 8 8) emptyTable
        (UpstreamResponse.mk 502 [])).reply = none :=
  ⟨by decide, rfl, by decide,
    (C6_upstream_error_drops_query [0xAB, 0xCD] (ipv4 8 8 8 8) emptyTable
      (UpstreamResponse.mk 502 []) (by decide) rfl (by decide)).1⟩

/-- C7: `parse_dns_query_for_hostname` returns the constant
`"example.com"` for every input, and `create_static_ip_dns_response`
returns the empty byte string for every address. -/
theorem C7_placeholders_are_constant :
    (∀ query : List Nat, parse_dns_query_for_hostname query = "example.com") ∧
    (∀ ip : String, create_static_ip_dns_response ip = []) :=
  ⟨fun _ => rfl, fun _ => rfl⟩

/-- C8 counterexample: an entry added as `Example.COM` is found under that
exact casing, is not found under `example.com`, and a remove under
`example.com` does not delete it. -/
theorem C8_counterexample_case_sensitive_lookup :
    add_static_ip_mapping emptyTable "Example.COM" "10.0.0.5" "Example.COM" =
      some "10.0.0.5" ∧
    add_static_ip_mapping emptyTable "Example.COM" "10.0.0.5" "example.com" =
      none ∧
    remove_static_ip_mapping
        (add_static_ip_mapping emptyTable "Example.COM" "10.0.0.5")
        "example.com" "Example.COM" = some "10.0.0.5" := by
  refine ⟨by decide, by decide, ?_⟩
  decide

/-- C8 amended: the table keys are case-sensitive: an add under one casing
is found by a lookup under exactly that casing, lookups under any other key
string are unaffected, and a remove affects only the exact key string. -/
theorem C8_amended_table_is_case_sensitive
    (m : StaticTable) (hostname ip k : String) :
    (add_static_ip_mapping m hostname ip hostname = some ip) ∧
    (k ≠ hostname → add_static_ip_mapping m hostname ip k = m k) ∧
    (k ≠ hostname → remove_static_ip_mapping m hostname k = m k) := by
  refine ⟨by simp [add_static_ip_mapping], fun hk => by simp [add_static_ip_mapping, hk],
    fun hk => ?_⟩
  unfold remove_static_ip_mapping
  by_cases hm : (m hostname).isSome <;> simp [hm, hk]

/-- C8 amended witness: concrete distinct casings of one hostname. -/
theorem C8_amended_table_is_case_sensitive_witness :
    ("example.com" : String) ≠ "Example.COM" ∧
    add_static_ip_mapping emptyTable "Example.COM" "10.0.0.5" "Example.COM" =
      some "10.0.0.5" ∧
    add_static_ip_mapping emptyTable "Example.COM" "10.0.0.5" "example.com" =
      emptyTable "example.com" :=
  ⟨by decide,
    (C8_amended_table_is_case_sensitive emptyTable "Example.COM" "10.0.0.5"
      "example.com").1,
    (C8_amended_table_is_case_sensitive emptyTable "Example.COM" "10.0.0.5"
      "example.com").2.1 (by decide)⟩

/-- C9: adding the same mapping twice yields the same table as adding it
once, and removing a hostname with no mapping leaves the table unchanged
(and raises no error — removal is total). -/
theorem C9_add_idempotent_remove_missing_noop
    (m : StaticTable) (hostname ip : String) :
    add_static_ip_mapping (add_static_ip_mapping m hostname ip) hostname ip =
      add_static_ip_mapping m hostname ip ∧
    (m hostname = none → remove_static_ip_mapping m hostname = m) := by
  constructor
  · funext k
    by_cases hk : k = hostname <;> simp [add_static_ip_mapping, hk]
  · intro h
    simp [remove_static_ip_mapping, h]

/-- C9 witness: the empty table with a concrete hostname and address. -/
theorem C9_add_idempotent_remove_missing_noop_witness :
    emptyTable "example.com" = none ∧
    add_static_ip_mapping (add_static_ip_mapping emptyTable "example.com" "10.0.0.5")
        "example.com" "10.0.0.5" =
      add_static_ip_mapping emptyTable "example.com" "10.0.0.5" ∧
    remove_static_ip_mapping emptyTable "example.com" = emptyTable :=
  ⟨rfl,
    (C9_add_idempotent_remove_missing_noop emptyTable "example.com" "10.0.0.5").1,
    (C9_add_idempotent_remove_missing_noop emptyTable "example.com" "10.0.0.5").2 rfl⟩

/-- C10: the listener loop performs every iteration of any finite trace of
per-iteration outcomes — no outcome, exception included, stops it — and a
caught exception is logged and the loop keeps running. -/
theorem C10_listener_loop_survives_all_outcomes
    (outcomes : List LoopOutcome) (msg : String) :
    start_dns_server_run outcomes = outcomes.length ∧
    start_dns_server_step (LoopOutcome.exn msg) =
      (true, [LogEvent.errorCaught msg]) := by
  constructor
  · induction outcomes with
    | nil => rfl
    | cons o rest ih =>
        cases o <;> simp [start_dns_server_run, start_dns_server_step, ih] <;> omega
  · rfl

/-- C3: every address in a configured bogon range is classified bogon;
every RFC1918 private address is not; every globally routable address
is not. -/
theorem C3_bogon_classification (ip : Nat) :
    ((∃ r ∈ BOGON_IP_RANGES, inCIDR r.1 r.2 ip = true) → is_bogon_ip ip = true) ∧
    (inRFC1918 ip = true → is_bogon_ip ip = false) ∧
    (globallyRoutable ip = true → is_bogon_ip ip = false) := by
  refine ⟨?_, ?_, ?_⟩
  · intro h
    obtain ⟨r, hr, hm⟩ := h
    simp only [is_bogon_ip, List.any_eq_true]
    exact ⟨r, hr, hm⟩
  · intro h
    simp only [inRFC1918, inCIDR, ipv4, Bool.or_eq_true, beq_iff_eq] at h
    simp only [is_bogon_ip, BOGON_IP_RANGES, inCIDR, ipv4, List.any_cons,
      List.any_nil, Bool.or_eq_false_iff, beq_eq_false_iff_ne, ne_eq]
    norm_num at h ⊢
    omega
  · intro h
    simp only [globallyRoutable, SPECIAL_USE_RANGES, Bool.and_eq_true,
      Bool.not_eq_true', List.any_append, Bool.or_eq_false_iff] at h
    simpa [is_bogon_ip] using h.2.1

/-- C3 witness: loopback `127.0.0.1` is bogon; private `10.0.0.1` and
routable `8.8.8.8` are not. -/
theorem C3_bogon_classification_witness :
    is_bogon_ip (ipv4 127 0 0 1) = true ∧
    is_bogon_ip (ipv4 10 0 0 1) = false ∧
    is_bogon_ip (ipv4 8 8 8 8) = false :=
  ⟨(C3_bogon_classification (ipv4 127 0 0 1)).1 (by decide),
    (C3_bogon_classification (ipv4 10 0 0 1)).2.1 (by decide),
    (C3_bogon_classification (ipv4 8 8 8 8)).2.2 (by decide)⟩


end DnsToDoh
